import Mathlib

/-!
Shallow embedding of `src/tools/tools.go` (package `tools` of the bitrise
repository).  Ambient inputs of the Go code are made explicit parameters:

* `runtime.GOOS` / `runtime.GOARCH` become the `goos` / `goarch` arguments;
* `log.GetLevel().String()` becomes the `logLevel` argument;
* filesystem, network and subprocess outcomes become explicit environment
  records (`DownloadEnv`, `InstallEnv`, `CapturedRun`, runner functions), and
  the side effects the code performs are collected into an ordered
  `List FsEffect` trace.
-/

namespace BitriseTools

/-- Embedding of `UnameGOOS` (tools.go:21): switch on `runtime.GOOS`,
made an explicit argument `goos`. -/
def UnameGOOS (goos : String) : Except String String :=
  if goos = "darwin" then Except.ok "Darwin"
  else if goos = "linux" then Except.ok "Linux"
  else Except.error ("Unsupported platform (" ++ goos ++ ")")

/-- Embedding of `UnameGOARCH` (tools.go:32): switch on `runtime.GOARCH`,
made an explicit argument `goarch`. -/
def UnameGOARCH (goarch : String) : Except String String :=
  if goarch = "amd64" then Except.ok "x86_64"
  else Except.error ("Unsupported architecture (" ++ goarch ++ ")")

/-- Side effects performed by the download / install code, recorded in the
order the Go code attempts them. -/
inductive FsEffect where
  | create (path : String)
  | httpGet (url : String)
  | copyToFile (path : String)
  | chmod (path : String) (mode : Nat)
  deriving DecidableEq, Repr

/-- Outcome environment for `DownloadFile`: whether `os.Create`, `http.Get`
and `io.Copy` fail, and with which error text. -/
structure DownloadEnv where
  createErr : String → Option String
  getErr : String → Option String
  copyErr : Option String

/-- Embedding of `DownloadFile` (tools.go:56).  Returns the error result of
the Go function (`none` = nil error) together with the ordered trace of the
operations the code attempted.  The Go code first calls `os.Create`, returns
the create error before `http.Get` when creation fails, then issues the GET,
then streams the body with `io.Copy`. -/
def DownloadFile (env : DownloadEnv) (downloadURL targetDirPath : String) :
    Option String × List FsEffect :=
  match env.createErr targetDirPath with
  | some e =>
      (some ("failed to create (" ++ targetDirPath ++ "), error: " ++ e),
       [FsEffect.create targetDirPath])
  | none =>
    match env.getErr downloadURL with
    | some e =>
        (some ("failed to download from (" ++ downloadURL ++ "), error: " ++ e),
         [FsEffect.create targetDirPath, FsEffect.httpGet downloadURL])
    | none =>
      match env.copyErr with
      | some e =>
          (some ("failed to download from (" ++ downloadURL ++ "), error: " ++ e),
           [FsEffect.create targetDirPath, FsEffect.httpGet downloadURL,
            FsEffect.copyToFile targetDirPath])
      | none =>
          (none,
           [FsEffect.create targetDirPath, FsEffect.httpGet downloadURL,
            FsEffect.copyToFile targetDirPath])

/-- Environment for `InstallFromURL`: the download outcomes, the `os.Chmod`
outcome, and the value of `configs.GetBitriseToolsDirPath()`. -/
structure InstallEnv where
  dl : DownloadEnv
  chmodErr : String → Nat → Option String
  bitriseToolsDirPath : String

/-- Models Go `filepath.Join(dir, name)` for a directory joined with a simple
file name: the two components separated by one path separator. -/
def joinPath (dir name : String) : String := dir ++ "/" ++ name

/-- Embedding of `InstallFromURL` (tools.go:86): rejects an empty tool (bin)
name before any effect, joins the tools directory with the name, downloads,
then sets mode 0755 with `os.Chmod`, wrapping each failure as in the source. -/
def InstallFromURL (env : InstallEnv) (toolBinName downloadURL : String) :
    Option String × List FsEffect :=
  if toolBinName.length < 1 then
    (some ("No Tool (bin) Name provided! URL was: " ++ downloadURL), [])
  else
    let destinationPth := joinPath env.bitriseToolsDirPath toolBinName
    match DownloadFile env.dl downloadURL destinationPth with
    | (some e, effs) => (some ("Failed to download, error: " ++ e), effs)
    | (none, effs) =>
      match env.chmodErr destinationPth 0o755 with
      | some e =>
          (some ("Failed to make file (" ++ destinationPth ++ ") executable, error: " ++ e),
           effs ++ [FsEffect.chmod destinationPth 0o755])
      | none => (none, effs ++ [FsEffect.chmod destinationPth 0o755])

/-- Embedding of `InstallToolFromGitHub` (tools.go:41): resolves the OS and
architecture names, wraps their failures, builds the release download URL by
string concatenation exactly as the source, and delegates to
`InstallFromURL`. -/
def InstallToolFromGitHub (env : InstallEnv) (goos goarch : String)
    (toolname githubUser toolVersion : String) : Option String × List FsEffect :=
  match UnameGOOS goos with
  | Except.error e => (some ("Failed to determine OS: " ++ e), [])
  | Except.ok osName =>
    match UnameGOARCH goarch with
    | Except.error e => (some ("Failed to determine ARCH: " ++ e), [])
    | Except.ok archName =>
      let downloadURL := "https://github.com/" ++ githubUser ++ "/" ++ toolname ++
        "/releases/download/" ++ toolVersion ++ "/" ++ toolname ++ "-" ++ osName ++
        "-" ++ archName
      InstallFromURL env toolname downloadURL

/-! Argument lists assembled by the Process Invocation Facade.  Each `...Args`
definition is the `args` slice built by the homonymous Go function, with the
ambient `log.GetLevel().String()` made the explicit first parameter. -/

/-- Arguments of `StepmanSetup` (tools.go:109). -/
def StepmanSetupArgs (logLevel collection : String) : List String :=
  ["--debug", "--loglevel", logLevel, "setup", "--collection", collection]

/-- Arguments of `StepmanActivate` (tools.go:116). -/
def StepmanActivateArgs (logLevel collection stepID stepVersion dir ymlPth : String) :
    List String :=
  ["--debug", "--loglevel", logLevel, "activate", "--collection", collection,
   "--id", stepID, "--version", stepVersion, "--path", dir, "--copyyml", ymlPth]

/-- Arguments of `StepmanUpdate` (tools.go:124). -/
def StepmanUpdateArgs (logLevel collection : String) : List String :=
  ["--debug", "--loglevel", logLevel, "update", "--collection", collection]

/-- Arguments of `StepmanRawStepLibStepInfo` (tools.go:131). -/
def StepmanRawStepLibStepInfoArgs (logLevel collection stepID stepVersion : String) :
    List String :=
  ["--debug", "--loglevel", logLevel, "step-info", "--collection", collection,
   "--id", stepID, "--version", stepVersion, "--format", "raw"]

/-- Arguments of `StepmanRawLocalStepInfo` (tools.go:139). -/
def StepmanRawLocalStepInfoArgs (logLevel pth : String) : List String :=
  ["--debug", "--loglevel", logLevel, "step-info", "--step-yml", pth, "--format", "raw"]

/-- Arguments of `StepmanJSONStepLibStepInfo` (tools.go:146). -/
def StepmanJSONStepLibStepInfoArgs (logLevel collection stepID stepVersion : String) :
    List String :=
  ["--debug", "--loglevel", logLevel, "step-info", "--collection", collection,
   "--id", stepID, "--version", stepVersion, "--format", "json"]

/-- Arguments of `StepmanJSONLocalStepInfo` (tools.go:162). -/
def StepmanJSONLocalStepInfoArgs (logLevel pth : String) : List String :=
  ["--debug", "--loglevel", logLevel, "step-info", "--step-yml", pth, "--format", "json"]

/-- Arguments of `StepmanRawStepList` (tools.go:177). -/
def StepmanRawStepListArgs (logLevel collection : String) : List String :=
  ["--debug", "--loglevel", logLevel, "step-list", "--collection", collection,
   "--format", "raw"]

/-- Arguments of `StepmanJSONStepList` (tools.go:184). -/
def StepmanJSONStepListArgs (logLevel collection : String) : List String :=
  ["--debug", "--loglevel", logLevel, "step-list", "--collection", collection,
   "--format", "json"]

/-- Arguments of `StepmanShare` (tools.go:202). -/
def StepmanShareArgs (logLevel : String) : List String :=
  ["--loglevel", logLevel, "share", "--toolmode"]

/-- Arguments of `StepmanShareAudit` (tools.go:209). -/
def StepmanShareAuditArgs (logLevel : String) : List String :=
  ["--loglevel", logLevel, "share", "audit", "--toolmode"]

/-- Arguments of `StepmanShareCreate` (tools.go:216). -/
def StepmanShareCreateArgs (logLevel tag git stepID : String) : List String :=
  ["--loglevel", logLevel, "share", "create", "--tag", tag, "--git", git,
   "--stepid", stepID, "--toolmode"]

/-- Arguments of `StepmanShareFinish` (tools.go:223). -/
def StepmanShareFinishArgs (logLevel : String) : List String :=
  ["--loglevel", logLevel, "share", "finish", "--toolmode"]

/-- Arguments of `StepmanShareStart` (tools.go:230). -/
def StepmanShareStartArgs (logLevel collection : String) : List String :=
  ["--loglevel", logLevel, "share", "start", "--collection", collection, "--toolmode"]

/-- Arguments of `EnvmanInit` (tools.go:240). -/
def EnvmanInitArgs (logLevel : String) : List String :=
  ["--loglevel", logLevel, "init"]

/-- Arguments of `EnvmanInitAtPath` (tools.go:247). -/
def EnvmanInitAtPathArgs (logLevel envstorePth : String) : List String :=
  ["--loglevel", logLevel, "--path", envstorePth, "init", "--clear"]

/-- Arguments of `EnvmanAdd` (tools.go:254): the base list, then `--no-expand`
appended when `expand` is false, then `--skip-if-empty` appended when
`skipIfEmpty` is true.  The `value` parameter of the Go function is not an
input of this definition because the source never places it in `args`. -/
def EnvmanAddArgs (logLevel envstorePth key : String) (expand skipIfEmpty : Bool) :
    List String :=
  let args := ["--loglevel", logLevel, "--path", envstorePth, "add", "--key", key,
               "--append"]
  let args := if !expand then args ++ ["--no-expand"] else args
  let args := if skipIfEmpty then args ++ ["--skip-if-empty"] else args
  args

/-- Arguments of `EnvmanClear` (tools.go:272). -/
def EnvmanClearArgs (logLevel envstorePth : String) : List String :=
  ["--loglevel", logLevel, "--path", envstorePth, "clear"]

/-- Arguments of `EnvmanRun` (tools.go:287): the fixed flags followed by the
caller's free-form command. -/
def EnvmanRunArgs (logLevel envstorePth : String) (cmd : List String) : List String :=
  ["--loglevel", logLevel, "--path", envstorePth, "run"] ++ cmd

/-- Arguments of `EnvmanJSONPrint` (tools.go:296). -/
def EnvmanJSONPrintArgs (logLevel envstorePth : String) : List String :=
  ["--loglevel", logLevel, "--path", envstorePth, "print", "--format", "json", "--expand"]

/-- Outcome of a subprocess run whose stdout and stderr were captured into two
independent buffers (`cmdex.RunCommandWithWriters` with two `bytes.Buffer`s):
the returned error (`none` = nil) and the final contents of the two buffers. -/
structure CapturedRun where
  runErr : Option String
  stdout : String
  stderr : String

/-- Result mapping of `StepmanJSONStepLibStepInfo` (tools.go:146): on success
return the stdout buffer text with nil error; on failure return the stdout
buffer text and an error embedding the underlying error and the stderr text. -/
def StepmanJSONStepLibStepInfo (run : CapturedRun) : String × Option String :=
  match run.runErr with
  | some e => (run.stdout, some ("Error: " ++ e ++ ", details: " ++ run.stderr))
  | none => (run.stdout, none)

/-- Result mapping of `StepmanJSONLocalStepInfo` (tools.go:162), identical in
shape to the other split-capture operations. -/
def StepmanJSONLocalStepInfo (run : CapturedRun) : String × Option String :=
  match run.runErr with
  | some e => (run.stdout, some ("Error: " ++ e ++ ", details: " ++ run.stderr))
  | none => (run.stdout, none)

/-- Result mapping of `StepmanJSONStepList` (tools.go:184). -/
def StepmanJSONStepList (run : CapturedRun) : String × Option String :=
  match run.runErr with
  | some e => (run.stdout, some ("Error: " ++ e ++ ", details: " ++ run.stderr))
  | none => (run.stdout, none)

/-- Result mapping of `EnvmanJSONPrint` (tools.go:296). -/
def EnvmanJSONPrint (run : CapturedRun) : String × Option String :=
  match run.runErr with
  | some e => (run.stdout, some ("Error: " ++ e ++ ", details: " ++ run.stderr))
  | none => (run.stdout, none)

/-- Embedding of `EnvmanRun` (tools.go:287): the external runner
`cmdex.RunCommandInDirAndReturnExitCode` is an explicit parameter taking the
working directory, the executable name and the argument list; the Go function
returns the runner's `(exit code, error)` pair unchanged. -/
def EnvmanRun (runner : String → String → List String → Int × Option String)
    (logLevel envstorePth workDirPth : String) (cmd : List String) :
    Int × Option String :=
  runner workDirPth "envman" (EnvmanRunArgs logLevel envstorePth cmd)

/-- Modelled from the spec: the behaviour of the external runner
`cmdex.RunCommandInDirAndReturnExitCode` (library `go-utils`, outside this
repository) composed with the external `envman run` tool, in the case where
the environment manager itself is invocable and the inner command exits with
code `innerExitCode` - the runner reports that inner exit code and no
invocation-level error. -/
def exitCodePassthroughRunner (innerExitCode : Int) :
    String → String → List String → Int × Option String :=
  fun _ _ _ => (innerExitCode, none)

/-- Invocation assembled by `EnvmanAdd` (tools.go:254): executable name,
argument list, the exact content handed to the subprocess standard input
(`strings.NewReader(value)`), and whether stdout / stderr are the inherited
`os.Stdout` / `os.Stderr`. -/
structure EnvmanAddInvocation where
  exe : String
  args : List String
  stdinContent : String
  stdoutInherited : Bool
  stderrInherited : Bool

/-- Embedding of `EnvmanAdd` (tools.go:254) as the invocation it assembles:
`exec.Command("envman", args...)` with `Stdin = strings.NewReader(value)`,
`Stdout = os.Stdout`, `Stderr = os.Stderr`. -/
def EnvmanAdd (logLevel envstorePth key value : String) (expand skipIfEmpty : Bool) :
    EnvmanAddInvocation :=
  { exe := "envman"
    args := EnvmanAddArgs logLevel envstorePth key expand skipIfEmpty
    stdinContent := value
    stdoutInherited := true
    stderrInherited := true }

/-- Predicate for the verbosity-prefix invariant: the argument list starts
with the canonical verbosity-control flags - either the debug flag followed by
the log-level flag pair, or the log-level flag pair alone - and every
sub-command-specific entry comes after them. -/
def beginsWithVerbosityFlags (logLevel : String) (args : List String) : Prop :=
  ∃ rest, args = ["--debug", "--loglevel", logLevel] ++ rest ∨
    args = ["--loglevel", logLevel] ++ rest

/-- C1: for every operation of the Process Invocation Facade (every Stepman
and Envman function), the assembled argument list begins with the canonical
verbosity-control flags - the log-verbosity flag pair, preceded in the
debug-mode Stepman operations by the debug flag - before any
sub-command-specific flags. -/
theorem c1_facade_args_begin_with_verbosity_flags (logLevel : String) :
    (∀ collection, beginsWithVerbosityFlags logLevel (StepmanSetupArgs logLevel collection)) ∧
    (∀ collection stepID stepVersion dir ymlPth, beginsWithVerbosityFlags logLevel
      (StepmanActivateArgs logLevel collection stepID stepVersion dir ymlPth)) ∧
    (∀ collection, beginsWithVerbosityFlags logLevel (StepmanUpdateArgs logLevel collection)) ∧
    (∀ collection stepID stepVersion, beginsWithVerbosityFlags logLevel
      (StepmanRawStepLibStepInfoArgs logLevel collection stepID stepVersion)) ∧
    (∀ pth, beginsWithVerbosityFlags logLevel (StepmanRawLocalStepInfoArgs logLevel pth)) ∧
    (∀ collection stepID stepVersion, beginsWithVerbosityFlags logLevel
      (StepmanJSONStepLibStepInfoArgs logLevel collection stepID stepVersion)) ∧
    (∀ pth, beginsWithVerbosityFlags logLevel (StepmanJSONLocalStepInfoArgs logLevel pth)) ∧
    (∀ collection, beginsWithVerbosityFlags logLevel (StepmanRawStepListArgs logLevel collection)) ∧
    (∀ collection, beginsWithVerbosityFlags logLevel (StepmanJSONStepListArgs logLevel collection)) ∧
    beginsWithVerbosityFlags logLevel (StepmanShareArgs logLevel) ∧
    beginsWithVerbosityFlags logLevel (StepmanShareAuditArgs logLevel) ∧
    (∀ tag git stepID, beginsWithVerbosityFlags logLevel
      (StepmanShareCreateArgs logLevel tag git stepID)) ∧
    beginsWithVerbosityFlags logLevel (StepmanShareFinishArgs logLevel) ∧
    (∀ collection, beginsWithVerbosityFlags logLevel (StepmanShareStartArgs logLevel collection)) ∧
    beginsWithVerbosityFlags logLevel (EnvmanInitArgs logLevel) ∧
    (∀ envstorePth, beginsWithVerbosityFlags logLevel (EnvmanInitAtPathArgs logLevel envstorePth)) ∧
    (∀ envstorePth key expand skipIfEmpty, beginsWithVerbosityFlags logLevel
      (EnvmanAddArgs logLevel envstorePth key expand skipIfEmpty)) ∧
    (∀ envstorePth, beginsWithVerbosityFlags logLevel (EnvmanClearArgs logLevel envstorePth)) ∧
    (∀ envstorePth cmd, beginsWithVerbosityFlags logLevel
      (EnvmanRunArgs logLevel envstorePth cmd)) ∧
    (∀ envstorePth, beginsWithVerbosityFlags logLevel (EnvmanJSONPrintArgs logLevel envstorePth)) :=
  ⟨fun _ => ⟨_, Or.inl rfl⟩,
   fun _ _ _ _ _ => ⟨_, Or.inl rfl⟩,
   fun _ => ⟨_, Or.inl rfl⟩,
   fun _ _ _ => ⟨_, Or.inl rfl⟩,
   fun _ => ⟨_, Or.inl rfl⟩,
   fun _ _ _ => ⟨_, Or.inl rfl⟩,
   fun _ => ⟨_, Or.inl rfl⟩,
   fun _ => ⟨_, Or.inl rfl⟩,
   fun _ => ⟨_, Or.inl rfl⟩,
   ⟨_, Or.inr rfl⟩,
   ⟨_, Or.inr rfl⟩,
   fun _ _ _ => ⟨_, Or.inr rfl⟩,
   ⟨_, Or.inr rfl⟩,
   fun _ => ⟨_, Or.inr rfl⟩,
   ⟨_, Or.inr rfl⟩,
   fun _ => ⟨_, Or.inr rfl⟩,
   fun _ _ e s => by cases e <;> cases s <;> exact ⟨_, Or.inr rfl⟩,
   fun _ => ⟨_, Or.inr rfl⟩,
   fun _ _ => ⟨_, Or.inr rfl⟩,
   fun _ => ⟨_, Or.inr rfl⟩⟩

/-- C2: platform identification is a closed mapping - darwin maps to Darwin,
linux maps to Linux, amd64 maps to x86_64, and every other runtime value
yields the corresponding unsupported-platform or unsupported-architecture
error carrying the raw reported value. -/
theorem c2_platform_identification_closed_mapping :
    UnameGOOS "darwin" = Except.ok "Darwin" ∧
    UnameGOOS "linux" = Except.ok "Linux" ∧
    UnameGOARCH "amd64" = Except.ok "x86_64" ∧
    (∀ goos, goos ≠ "darwin" → goos ≠ "linux" →
      UnameGOOS goos = Except.error ("Unsupported platform (" ++ goos ++ ")")) ∧
    (∀ goarch, goarch ≠ "amd64" →
      UnameGOARCH goarch = Except.error ("Unsupported architecture (" ++ goarch ++ ")")) := by
  refine ⟨rfl, rfl, rfl, ?_, ?_⟩
  · intro goos h1 h2
    simp [UnameGOOS, h1, h2]
  · intro goarch h
    simp [UnameGOARCH, h]

/-- Witness for C2 at concrete unsupported values. -/
theorem c2_platform_identification_closed_mapping_witness :
    UnameGOOS "windows" = Except.error ("Unsupported platform (" ++ "windows" ++ ")") ∧
    UnameGOARCH "arm64" = Except.error ("Unsupported architecture (" ++ "arm64" ++ ")") :=
  ⟨c2_platform_identification_closed_mapping.2.2.2.1 "windows" (by decide) (by decide),
   c2_platform_identification_closed_mapping.2.2.2.2 "arm64" (by decide)⟩

/-- C3: every split-capture operation returns exactly the captured stdout text
on subprocess success (stderr excluded even when non-empty), and on subprocess
failure returns an error embedding both the underlying error and the captured
stderr text. -/
theorem c3_split_capture_stdout_and_error (out err e : String) :
    (StepmanJSONStepLibStepInfo ⟨none, out, err⟩ = (out, none) ∧
     StepmanJSONStepLibStepInfo ⟨some e, out, err⟩ =
       (out, some ("Error: " ++ e ++ ", details: " ++ err))) ∧
    (StepmanJSONLocalStepInfo ⟨none, out, err⟩ = (out, none) ∧
     StepmanJSONLocalStepInfo ⟨some e, out, err⟩ =
       (out, some ("Error: " ++ e ++ ", details: " ++ err))) ∧
    (StepmanJSONStepList ⟨none, out, err⟩ = (out, none) ∧
     StepmanJSONStepList ⟨some e, out, err⟩ =
       (out, some ("Error: " ++ e ++ ", details: " ++ err))) ∧
    (EnvmanJSONPrint ⟨none, out, err⟩ = (out, none) ∧
     EnvmanJSONPrint ⟨some e, out, err⟩ =
       (out, some ("Error: " ++ e ++ ", details: " ++ err))) :=
  ⟨⟨rfl, rfl⟩, ⟨rfl, rfl⟩, ⟨rfl, rfl⟩, ⟨rfl, rfl⟩⟩

/-- C4: EnvmanRun runs the command through the environment manager in the
given working directory - passing the runner exactly the fixed flags followed
by the command - and returns the runner's (exit code, error) pair unchanged;
with the spec-modelled external runner, an inner command exiting with code 3
yields result code 3 and no invocation-level error. -/
theorem c4_envman_run_exit_code_passthrough
    (runner : String → String → List String → Int × Option String)
    (logLevel envstorePth workDirPth : String) (cmd : List String) :
    EnvmanRun runner logLevel envstorePth workDirPth cmd =
      runner workDirPth "envman"
        (["--loglevel", logLevel, "--path", envstorePth, "run"] ++ cmd) ∧
    EnvmanRun (exitCodePassthroughRunner 3) logLevel envstorePth workDirPth cmd =
      (3, none) :=
  ⟨rfl, rfl⟩

/-- C5: InstallFromURL called with an empty tool (bin) name returns the
empty-name error - carrying the URL - with an empty effect trace: no file
creation and no download is attempted. -/
theorem c5_install_from_url_empty_name (env : InstallEnv) (downloadURL : String) :
    InstallFromURL env "" downloadURL =
      (some ("No Tool (bin) Name provided! URL was: " ++ downloadURL), []) := by
  simp [InstallFromURL]

/-- C6: DownloadFile attempts the file creation at the destination path before
any other operation, and when creation fails it returns the create error with
a trace containing only the create attempt - the HTTP GET is never issued. -/
theorem c6_download_file_creates_before_get (env : DownloadEnv)
    (downloadURL targetDirPath : String) :
    ((DownloadFile env downloadURL targetDirPath).2.head? =
      some (FsEffect.create targetDirPath)) ∧
    (∀ e, env.createErr targetDirPath = some e →
      DownloadFile env downloadURL targetDirPath =
        (some ("failed to create (" ++ targetDirPath ++ "), error: " ++ e),
         [FsEffect.create targetDirPath]) ∧
      ∀ u, FsEffect.httpGet u ∉ (DownloadFile env downloadURL targetDirPath).2) := by
  constructor
  · rcases h1 : env.createErr targetDirPath with _ | e1
    · rcases h2 : env.getErr downloadURL with _ | e2
      · rcases h3 : env.copyErr with _ | e3 <;> simp [DownloadFile, h1, h2, h3]
      · simp [DownloadFile, h1, h2]
    · simp [DownloadFile, h1]
  · intro e he
    refine ⟨by simp [DownloadFile, he], fun u => ?_⟩
    simp [DownloadFile, he]

/-- Environment used by the witness of C6: file creation fails. -/
def c6WitnessEnv : DownloadEnv where
  createErr := fun _ => some "disk full"
  getErr := fun _ => none
  copyErr := none

/-- Witness for C6 at a concrete failing creation. -/
theorem c6_download_file_creates_before_get_witness :
    c6WitnessEnv.createErr "/bitrise/tools/stepman" = some "disk full" ∧
    DownloadFile c6WitnessEnv "https://example.com/a" "/bitrise/tools/stepman" =
      (some ("failed to create (" ++ "/bitrise/tools/stepman" ++ "), error: " ++ "disk full"),
       [FsEffect.create "/bitrise/tools/stepman"]) ∧
    FsEffect.httpGet "https://example.com/a" ∉
      (DownloadFile c6WitnessEnv "https://example.com/a" "/bitrise/tools/stepman").2 := by
  have h := (c6_download_file_creates_before_get c6WitnessEnv "https://example.com/a"
    "/bitrise/tools/stepman").2 "disk full" rfl
  exact ⟨rfl, h.1, h.2 "https://example.com/a"⟩

/-- C7: after a successful download, InstallFromURL performs a chmod of the
destination file to mode 0755, and a chmod failure is returned as an error
carrying the destination path. -/
theorem c7_install_sets_mode_0755 (env : InstallEnv) (toolBinName downloadURL : String)
    (hname : ¬ toolBinName.length < 1)
    (hdl : (DownloadFile env.dl downloadURL
      (joinPath env.bitriseToolsDirPath toolBinName)).1 = none) :
    (FsEffect.chmod (joinPath env.bitriseToolsDirPath toolBinName) 0o755 ∈
      (InstallFromURL env toolBinName downloadURL).2) ∧
    (∀ e, env.chmodErr (joinPath env.bitriseToolsDirPath toolBinName) 0o755 = some e →
      (InstallFromURL env toolBinName downloadURL).1 =
        some ("Failed to make file (" ++ joinPath env.bitriseToolsDirPath toolBinName ++
          ") executable, error: " ++ e)) := by
  rcases hD : DownloadFile env.dl downloadURL (joinPath env.bitriseToolsDirPath toolBinName)
    with ⟨r, effs⟩
  rw [hD] at hdl
  simp only at hdl
  subst hdl
  constructor
  · rcases hc : env.chmodErr (joinPath env.bitriseToolsDirPath toolBinName) 0o755
      with _ | e <;> simp [InstallFromURL, hname, hD, hc]
  · intro e he
    simp [InstallFromURL, hname, hD, he]

/-- Environment used by the witness of C7: download succeeds, chmod fails. -/
def c7WitnessEnv : InstallEnv where
  dl := { createErr := fun _ => none, getErr := fun _ => none, copyErr := none }
  chmodErr := fun _ _ => some "operation not permitted"
  bitriseToolsDirPath := "/bitrise/tools"

/-- Witness for C7 at a concrete successful download with a failing chmod. -/
theorem c7_install_sets_mode_0755_witness :
    (FsEffect.chmod (joinPath "/bitrise/tools" "stepman") 0o755 ∈
      (InstallFromURL c7WitnessEnv "stepman" "https://example.com/b").2) ∧
    (InstallFromURL c7WitnessEnv "stepman" "https://example.com/b").1 =
      some ("Failed to make file (" ++ joinPath "/bitrise/tools" "stepman" ++
        ") executable, error: " ++ "operation not permitted") := by
  have h := c7_install_sets_mode_0755 c7WitnessEnv "stepman" "https://example.com/b"
    (by decide) rfl
  exact ⟨h.1, h.2 "operation not permitted" rfl⟩

/-- C8: when platform identification succeeds, InstallToolFromGitHub builds
the release download URL exactly from the publisher, the tool name, the
version and the platform names, and delegates to InstallFromURL with the tool
name and that URL. -/
theorem c8_github_url_and_delegation (env : InstallEnv)
    (goos goarch toolname githubUser toolVersion osName archName : String)
    (hos : UnameGOOS goos = Except.ok osName)
    (harch : UnameGOARCH goarch = Except.ok archName) :
    InstallToolFromGitHub env goos goarch toolname githubUser toolVersion =
      InstallFromURL env toolname
        ("https://github.com/" ++ githubUser ++ "/" ++ toolname ++ "/releases/download/" ++
          toolVersion ++ "/" ++ toolname ++ "-" ++ osName ++ "-" ++ archName) := by
  simp [InstallToolFromGitHub, hos, harch]

/-- Environment used by the witness of C8. -/
def c8WitnessEnv : InstallEnv where
  dl := { createErr := fun _ => none, getErr := fun _ => none, copyErr := none }
  chmodErr := fun _ _ => none
  bitriseToolsDirPath := "/bitrise/tools"

/-- Witness for C8 on the darwin/amd64 platform. -/
theorem c8_github_url_and_delegation_witness :
    InstallToolFromGitHub c8WitnessEnv "darwin" "amd64" "stepman" "bitrise-io" "0.9.20" =
      InstallFromURL c8WitnessEnv "stepman"
        ("https://github.com/" ++ "bitrise-io" ++ "/" ++ "stepman" ++ "/releases/download/" ++
          "0.9.20" ++ "/" ++ "stepman" ++ "-" ++ "Darwin" ++ "-" ++ "x86_64") :=
  c8_github_url_and_delegation c8WitnessEnv "darwin" "amd64" "stepman" "bitrise-io"
    "0.9.20" "Darwin" "x86_64" rfl rfl

/-- C9: EnvmanAdd hands the value string to the subprocess standard input
exactly as given, never places it in the argument list (the argument list is a
function of the other parameters only), and inherits stdout and stderr. -/
theorem c9_envman_add_piped_input (logLevel envstorePth key value : String)
    (expand skipIfEmpty : Bool) :
    (EnvmanAdd logLevel envstorePth key value expand skipIfEmpty).stdinContent = value ∧
    (EnvmanAdd logLevel envstorePth key value expand skipIfEmpty).exe = "envman" ∧
    (EnvmanAdd logLevel envstorePth key value expand skipIfEmpty).args =
      EnvmanAddArgs logLevel envstorePth key expand skipIfEmpty ∧
    (EnvmanAdd logLevel envstorePth key value expand skipIfEmpty).stdoutInherited = true ∧
    (EnvmanAdd logLevel envstorePth key value expand skipIfEmpty).stderrInherited = true :=
  ⟨rfl, rfl, rfl, rfl, rfl⟩

/-- C10: the argument list of EnvmanAdd has the key at position 6 immediately
followed by the append flag, contains the no-expand flag exactly when expand
is false, contains the skip-if-empty flag exactly when skipIfEmpty is true,
and never contains the value (stated for a value distinct from the other
argument entries). -/
theorem c10_envman_add_argument_flags (logLevel envstorePth key value : String)
    (expand skipIfEmpty : Bool)
    (hl1 : logLevel ≠ "--no-expand") (hp1 : envstorePth ≠ "--no-expand")
    (hk1 : key ≠ "--no-expand")
    (hl2 : logLevel ≠ "--skip-if-empty") (hp2 : envstorePth ≠ "--skip-if-empty")
    (hk2 : key ≠ "--skip-if-empty")
    (hv : value ∉ ["--loglevel", logLevel, "--path", envstorePth, "add", "--key", key,
      "--append", "--no-expand", "--skip-if-empty"]) :
    (EnvmanAddArgs logLevel envstorePth key expand skipIfEmpty =
      ["--loglevel", logLevel, "--path", envstorePth, "add", "--key", key, "--append"] ++
      (if expand then [] else ["--no-expand"]) ++
      (if skipIfEmpty then ["--skip-if-empty"] else [])) ∧
    (EnvmanAddArgs logLevel envstorePth key expand skipIfEmpty).get? 6 = some key ∧
    (EnvmanAddArgs logLevel envstorePth key expand skipIfEmpty).get? 7 =
      some "--append" ∧
    ("--no-expand" ∈ EnvmanAddArgs logLevel envstorePth key expand skipIfEmpty ↔
      expand = false) ∧
    ("--skip-if-empty" ∈ EnvmanAddArgs logLevel envstorePth key expand skipIfEmpty ↔
      skipIfEmpty = true) ∧
    value ∉ EnvmanAddArgs logLevel envstorePth key expand skipIfEmpty := by
  simp only [List.mem_cons, List.mem_singleton, not_or] at hv
  obtain ⟨v1, v2, v3, v4, v5, v6, v7, v8, v9⟩ := hv
  cases expand <;> cases skipIfEmpty <;>
    exact ⟨rfl, rfl, rfl,
      by simp [EnvmanAddArgs, Ne.symm hl1, Ne.symm hp1, Ne.symm hk1],
      by simp [EnvmanAddArgs, Ne.symm hl2, Ne.symm hp2, Ne.symm hk2],
      by simp [EnvmanAddArgs, v1, v2, v3, v4, v5, v6, v7, v8, v9]⟩

/-- Witness for C10 at concrete inputs with expand false and skipIfEmpty
true. -/
theorem c10_envman_add_argument_flags_witness :
    ("--no-expand" ∈ EnvmanAddArgs "info" "/tmp/envstore" "MY_KEY" false true) ∧
    ("--skip-if-empty" ∈ EnvmanAddArgs "info" "/tmp/envstore" "MY_KEY" false true) ∧
    ("SOME VALUE" ∉ EnvmanAddArgs "info" "/tmp/envstore" "MY_KEY" false true) ∧
    (EnvmanAddArgs "info" "/tmp/envstore" "MY_KEY" false true).get? 7 =
      some "--append" := by
  have h := c10_envman_add_argument_flags "info" "/tmp/envstore" "MY_KEY" "SOME VALUE"
    false true (by decide) (by decide) (by decide) (by decide) (by decide) (by decide)
    (by decide)
  exact ⟨h.2.2.2.1.mpr rfl, h.2.2.2.2.1.mpr rfl, h.2.2.2.2.2, h.2.2.1⟩

end BitriseTools
